import Mathlib

/-!
Shallow embedding of the SFD-App frontend authentication code
(TokenManager, API client, JWTUtils, PKCEHelper), together with proofs
settling the specification claims about it.

Conventions used throughout:
* JavaScript truthiness of a string-valued slot (`null`, `undefined`, or a
  string) is modelled on `Option String`: `none` and `some ""` are falsy.
  Truthiness of a number-valued slot is modelled on `Option Int`: `none`
  and `some 0` are falsy.  Truthiness of an object-valued slot is
  `Option.isSome` (every JS object is truthy, `null` is falsy).
* `Date.now()` is passed in explicitly as `nowMs : Int` (milliseconds);
  `Math.floor(Date.now() / 1000)` becomes `Int.fdiv nowMs 1000`.
* `JWTUtils.parseJWT` performs platform base64/JSON decoding, so the
  decode step is abstracted as a parameter `parse : String -> Option Payload`;
  all logic downstream of the decode is embedded from the source.
* Network responses are supplied explicitly (a `FetchResult` for the
  refresh endpoint, a list of HTTP status codes for the generic client).
-/

/-- JS truthiness for a string-or-null slot: `null`/`undefined` and the
empty string are falsy. -/
def strTruthy : Option String → Bool
  | none => false
  | some s => !(s == "")

/-- JS truthiness for a number-or-null slot: `null`/`undefined` and `0`
are falsy. -/
def intTruthy : Option Int → Bool
  | none => false
  | some n => !(n == 0)

/-- Decoded JWT payload (the claims the code inspects).  A claim that is
absent from the JSON object is `none`. -/
structure Payload where
  iss : Option String := none
  sub : Option String := none
  aud : Option String := none
  iat : Option Int := none
  exp : Option Int := none
  nbf : Option Int := none
  role : Option String := none
  scopes : Option (List String) := none
  sessionId : Option String := none
  jti : Option String := none
deriving DecidableEq

/-- Error messages pushed by `JWTUtils.validateJWT`, one constructor per
distinct `result.errors.push(...)` site:
`missingRequired cs` is the string built from
`Missing required claims: ` and the joined list `cs`;
`expired` is `Token has expired`;
`noExpClaim` is `Token has no expiration claim`;
`notYetValid` is `Token is not yet valid (nbf claim in future)`. -/
inductive VErr where
  | missingRequired (cs : List String)
  | expired
  | noExpClaim
  | notYetValid
deriving DecidableEq

/-- Warning messages pushed by `JWTUtils.validateJWT`:
`expiresSoon` is `Token expires soon (less than 5 minutes)`;
`unknownRole r` is the unknown-role warning;
`noSessionId` and `noJti` are the missing-claim warnings. -/
inductive VWarn where
  | expiresSoon
  | unknownRole (r : String)
  | noSessionId
  | noJti
deriving DecidableEq

/-- Result object of `JWTUtils.validateJWT` (claim-checking part). -/
structure VResult where
  valid : Bool
  errors : List VErr
  warnings : List VWarn
deriving DecidableEq

/-- The source list `requiredClaims` of claim names `iss sub aud iat exp`. -/
def requiredClaims : List String := ["iss", "sub", "aud", "iat", "exp"]

/-- JS truthiness of `payload[claim]` for the required-claim names:
`iss`/`sub`/`aud` are strings, `iat`/`exp` are numbers. -/
def claimTruthy (p : Payload) : String → Bool
  | "iss" => strTruthy p.iss
  | "sub" => strTruthy p.sub
  | "aud" => strTruthy p.aud
  | "iat" => intTruthy p.iat
  | "exp" => intTruthy p.exp
  | _ => false

/-- The filter of `requiredClaims` keeping the claims whose payload value is falsy. -/
def missingRequiredClaims (p : Payload) : List String :=
  requiredClaims.filter (fun c => !(claimTruthy p c))

/-- Claim validation of `JWTUtils.validateJWT` (jwt-utils.js lines 122-173),
operating on the already-decoded payload; `now` is
`Math.floor(Date.now() / 1000)`.  The token-shape checks upstream of the
decode (missing token, not a string, wrong part count, decode failure)
return early and are not reached on a decoded payload.  The
`Array.isArray(payload.scopes)` warning can never fire in this typed
model because `scopes`, when present, is a list. -/
def validateJWT (p : Payload) (now : Int) : VResult :=
  let missing := missingRequiredClaims p
  let errsMissing : List VErr :=
    if missing.isEmpty then [] else [VErr.missingRequired missing]
  let expPair : List VErr × List VWarn :=
    if intTruthy p.exp then
      match p.exp with
      | some e =>
        if e ≤ now then ([VErr.expired], [])
        else if e ≤ now + 300 then ([], [VWarn.expiresSoon])
        else ([], [])
      | none => ([], [])
    else ([VErr.noExpClaim], [])
  let errsNbf : List VErr :=
    if intTruthy p.nbf then
      match p.nbf with
      | some b => if b > now then [VErr.notYetValid] else []
      | none => []
    else []
  let warnsRole : List VWarn :=
    match p.role with
    | some r => if !(r == "") && !(r ∈ ["admin", "customer"]) then [VWarn.unknownRole r] else []
    | none => []
  let warnsSession : List VWarn := if strTruthy p.sessionId then [] else [VWarn.noSessionId]
  let warnsJti : List VWarn := if strTruthy p.jti then [] else [VWarn.noJti]
  let errs := errsMissing ++ expPair.1 ++ errsNbf
  { valid := errs.isEmpty
    errors := errs
    warnings := expPair.2 ++ warnsRole ++ warnsSession ++ warnsJti }

theorem validateJWT_errors_eq (p : Payload) (now : Int) :
    (validateJWT p now).errors =
      (if (missingRequiredClaims p).isEmpty then []
       else [VErr.missingRequired (missingRequiredClaims p)]) ++
      (if intTruthy p.exp then
        match p.exp with
        | some e =>
          if e ≤ now then [VErr.expired]
          else []
        | none => []
       else [VErr.noExpClaim]) ++
      (if intTruthy p.nbf then
        match p.nbf with
        | some b => if b > now then [VErr.notYetValid] else []
        | none => []
       else []) := by
  unfold validateJWT
  cases hexp : p.exp with
  | none => simp [intTruthy]
  | some e =>
    by_cases he0 : e = 0
    · simp [intTruthy, he0]
    · by_cases hle : e ≤ now
      · simp [intTruthy, he0, hle]
      · by_cases hsoon : e ≤ now + 300 <;> simp [intTruthy, he0, hle, hsoon]

theorem validateJWT_valid_eq (p : Payload) (now : Int) :
    (validateJWT p now).valid = (validateJWT p now).errors.isEmpty := rfl

/-- C8: for every token whose decoded payload carries an `exp` claim (a
nonzero number, i.e. a value the truthiness test on `payload.exp`
accepts), `validateJWT` reports the expiry error exactly when
`exp <= now` (and is then invalid), reports the expiring-soon warning
exactly when `now < exp <= now + 300`, and reports the not-before error
whenever `nbf > now`. -/
theorem c8_validate_expiry_nbf (p : Payload) (now e : Int)
    (he : p.exp = some e) (hne : e ≠ 0) (hnow : 0 ≤ now) :
    (VErr.expired ∈ (validateJWT p now).errors ↔ e ≤ now)
    ∧ (e ≤ now → (validateJWT p now).valid = false)
    ∧ (VWarn.expiresSoon ∈ (validateJWT p now).warnings ↔ (now < e ∧ e ≤ now + 300))
    ∧ (∀ b, p.nbf = some b → now < b → VErr.notYetValid ∈ (validateJWT p now).errors) := by
  have herr := validateJWT_errors_eq p now
  have h1 : VErr.expired ∈ (validateJWT p now).errors ↔ e ≤ now := by
    rw [herr]
    by_cases hle : e ≤ now <;>
      cases hnbf : p.nbf <;>
      simp [he, intTruthy, hne, hle, hnbf] <;>
      split <;> simp
  refine ⟨h1, ?_, ?_, ?_⟩
  · intro hle
    have hmem : VErr.expired ∈ (validateJWT p now).errors := h1.mpr hle
    rw [validateJWT_valid_eq]
    cases hl : (validateJWT p now).errors with
    | nil => rw [hl] at hmem; simp at hmem
    | cons a l => simp [hl]
  · unfold validateJWT
    by_cases hle : e ≤ now
    · have : ¬ (now < e ∧ e ≤ now + 300) := by omega
      simp only [he, intTruthy]
      simp [hne, hle, this]
      rcases p.role with _ | r <;> simp <;> split <;> simp
    · by_cases hsoon : e ≤ now + 300
      · simp only [he, intTruthy]
        simp [hne, hle, hsoon]
        omega
      · have : ¬ (now < e ∧ e ≤ now + 300) := by omega
        simp only [he, intTruthy]
        simp [hne, hle, hsoon, this]
        rcases p.role with _ | r <;> simp <;> split <;> simp
  · intro b hb hlt
    have hb0 : b ≠ 0 := by omega
    rw [herr]
    by_cases hle : e ≤ now <;>
      simp [he, hb, intTruthy, hne, hb0, hlt, hle] <;>
      split <;> simp

/-- Concrete payload used to instantiate `c8_validate_expiry_nbf`. -/
def c8Payload : Payload :=
  { iss := some "issuer", sub := some "subj", aud := some "aud", iat := some 1,
    exp := some 1000, nbf := some 2000 }

theorem c8_witness :
    (c8Payload.exp = some 1000 ∧ (1000 : Int) ≠ 0 ∧ (0 : Int) ≤ 500)
    ∧ ((VErr.expired ∈ (validateJWT c8Payload 500).errors ↔ (1000 : Int) ≤ 500)
      ∧ ((1000 : Int) ≤ 500 → (validateJWT c8Payload 500).valid = false)
      ∧ (VWarn.expiresSoon ∈ (validateJWT c8Payload 500).warnings ↔
          ((500 : Int) < 1000 ∧ (1000 : Int) ≤ 500 + 300))
      ∧ (∀ b, c8Payload.nbf = some b → 500 < b →
          VErr.notYetValid ∈ (validateJWT c8Payload 500).errors)) :=
  ⟨⟨rfl, by decide, by decide⟩,
    c8_validate_expiry_nbf c8Payload 500 1000 rfl (by decide) (by decide)⟩

/-- C10: `validateJWT` tests required-claim presence with a JS falsiness
check, so a required claim holding a falsy value (the number `0`, the
empty string) is reported in the missing-claims error; in particular a
payload with `exp = 0` gets the missing-claims and no-expiration errors
and never the expired error. -/
theorem c10_falsy_required_claims (p : Payload) (now : Int) :
    (p.exp = some 0 →
      "exp" ∈ missingRequiredClaims p
      ∧ VErr.missingRequired (missingRequiredClaims p) ∈ (validateJWT p now).errors
      ∧ VErr.expired ∉ (validateJWT p now).errors
      ∧ VErr.noExpClaim ∈ (validateJWT p now).errors
      ∧ (validateJWT p now).valid = false)
    ∧ (p.iss = some "" → "iss" ∈ missingRequiredClaims p)
    ∧ (p.sub = some "" → "sub" ∈ missingRequiredClaims p) := by
  refine ⟨?_, ?_, ?_⟩
  · intro hexp
    have hmem : "exp" ∈ missingRequiredClaims p := by
      simp [missingRequiredClaims, requiredClaims, claimTruthy, hexp, intTruthy,
        List.mem_filter]
    have hne : missingRequiredClaims p ≠ [] := List.ne_nil_of_mem hmem
    have hemp : (missingRequiredClaims p).isEmpty = false := by
      cases h : missingRequiredClaims p with
      | nil => exact absurd h hne
      | cons a l => simp
    have herr := validateJWT_errors_eq p now
    refine ⟨hmem, ?_, ?_, ?_, ?_⟩
    · rw [herr]
      simp [hemp]
    · rw [herr]
      cases hnbf : p.nbf <;> simp [hemp, hexp, intTruthy, hnbf] <;> split <;> simp
    · rw [herr]
      simp [hexp, intTruthy]
    · have hmem2 : VErr.noExpClaim ∈ (validateJWT p now).errors := by
        rw [herr]; simp [hexp, intTruthy]
      rw [validateJWT_valid_eq]
      cases hl : (validateJWT p now).errors with
      | nil => rw [hl] at hmem2; simp at hmem2
      | cons a l => simp [hl]
  · intro hiss
    simp [missingRequiredClaims, requiredClaims, claimTruthy, hiss, strTruthy,
      List.mem_filter]
  · intro hsub
    simp [missingRequiredClaims, requiredClaims, claimTruthy, hsub, strTruthy,
      List.mem_filter]

/-- Concrete payload with falsy required claims (`exp = 0`, `iss = ""`,
`sub = ""`) used to instantiate `c10_falsy_required_claims`. -/
def c10Payload : Payload :=
  { iss := some "", sub := some "", aud := some "aud", iat := some 1,
    exp := some 0, nbf := none }

theorem c10_witness :
    ("exp" ∈ missingRequiredClaims c10Payload
      ∧ VErr.missingRequired (missingRequiredClaims c10Payload) ∈ (validateJWT c10Payload 7).errors
      ∧ VErr.expired ∉ (validateJWT c10Payload 7).errors
      ∧ VErr.noExpClaim ∈ (validateJWT c10Payload 7).errors
      ∧ (validateJWT c10Payload 7).valid = false)
    ∧ "iss" ∈ missingRequiredClaims c10Payload
    ∧ "sub" ∈ missingRequiredClaims c10Payload :=
  ⟨(c10_falsy_required_claims c10Payload 7).1 rfl,
    (c10_falsy_required_claims c10Payload 7).2.1 rfl,
    (c10_falsy_required_claims c10Payload 7).2.2 rfl⟩

/-- Session object stored by the token manager; `refreshedAt` is the
timestamp written by `performTokenRefresh` (the code stores
`new Date().toISOString()`, modelled here by the millisecond clock). -/
structure Session where
  id : Option String := none
  refreshedAt : Option Int := none
deriving DecidableEq

/-- User object stored by the token manager. -/
structure User where
  name : String := ""
  role : String := ""
deriving DecidableEq

/-- The durable store (`localStorage` under the four keys the manager
uses).  `JSON.stringify`/`JSON.parse` round-tripping of the session and
user objects is modelled as the identity. -/
structure StorageMap where
  accessToken : Option String := none
  refreshToken : Option String := none
  sessionData : Option Session := none
  userData : Option User := none
deriving DecidableEq

/-- In-memory state of a `TokenManager` instance: exactly the own
properties the constructor assigns.  Note that the constructor assigns
`this.refreshToken = null`, creating an own data property whose name
coincides with the prototype method `refreshToken()`.
`refreshTimer` holds the delay (ms) of the pending `setTimeout`, `none`
when no timer is pending.  `refreshPromise` is `none` when no refresh
promise is stored. -/
structure TMState where
  accessToken : Option String := none
  refreshToken : Option String := none
  sessionData : Option Session := none
  user : Option User := none
  refreshTimer : Option Int := none
  isRefreshing : Bool := false
  refreshPromise : Option Unit := none
  storage : StorageMap := {}
deriving DecidableEq

/-- Constant `this.refreshBuffer = 5 * 60 * 1000` (milliseconds). -/
def refreshBuffer : Int := 5 * 60 * 1000

/-- Method `TokenManager.saveToStorage`: each of the four keys is written only
when the corresponding field is truthy; a falsy field leaves whatever the
store already holds for that key. -/
def saveToStorage (st : TMState) : TMState :=
  let s0 := st.storage
  let s1 := if strTruthy st.accessToken then { s0 with accessToken := st.accessToken } else s0
  let s2 := if strTruthy st.refreshToken then { s1 with refreshToken := st.refreshToken } else s1
  let s3 := if st.sessionData.isSome then { s2 with sessionData := st.sessionData } else s2
  let s4 := if st.user.isSome then { s3 with userData := st.user } else s3
  { st with storage := s4 }

/-- Method `TokenManager.clearFromStorage`: removes all four keys. -/
def clearFromStorage (st : TMState) : TMState :=
  { st with storage := {} }

/-- Method `TokenManager.clearRefreshTimer`. -/
def clearRefreshTimer (st : TMState) : TMState :=
  { st with refreshTimer := none }

/-- Method `TokenManager.clearTokens`: nulls the four fields, clears the durable
store and cancels the pending refresh timer. -/
def clearTokens (st : TMState) : TMState :=
  clearRefreshTimer (clearFromStorage
    { st with accessToken := none, refreshToken := none, sessionData := none, user := none })

/-- The expiration info object built by
`TokenManager.getTokenExpirationInfo` (the fields the control flow
reads; the formatted `Date`/duration strings are presentational). -/
structure ExpInfo where
  expiresAtMs : Int
  timeUntilExpiry : Int
  isExpired : Bool
deriving DecidableEq

/-- Method `TokenManager.getTokenExpirationInfo`: returns `null` when the access
token is falsy, fails to decode, or its decoded payload has a falsy
`exp`.  `parse` abstracts `JWTUtils.parseJWT`; `nowMs` is `Date.now()`. -/
def getTokenExpirationInfo (parse : String → Option Payload) (st : TMState)
    (nowMs : Int) : Option ExpInfo :=
  match st.accessToken with
  | none => none
  | some tok =>
    if tok == "" then none
    else
      match parse tok with
      | none => none
      | some p =>
        match p.exp with
        | none => none
        | some e =>
          if e == 0 then none
          else
            let now := Int.fdiv nowMs 1000
            some { expiresAtMs := e * 1000
                   timeUntilExpiry := e - now
                   isExpired := decide (e - now ≤ 0) }

/-- Method `TokenManager.needsRefresh`. -/
def needsRefresh (parse : String → Option Payload) (st : TMState) (nowMs : Int) : Bool :=
  match getTokenExpirationInfo parse st nowMs with
  | none => true
  | some info => info.isExpired || decide (info.timeUntilExpiry ≤ refreshBuffer / 1000)

/-- Method `TokenManager.scheduleRefreshCheck`: cancels any pending timer; when
the access token is truthy, decodes, and is not yet expired, schedules
the auto-refresh with delay
`max(1000, expiresAt - Date.now() - refreshBuffer)` milliseconds. -/
def scheduleRefreshCheck (parse : String → Option Payload) (st : TMState)
    (nowMs : Int) : TMState :=
  let st := clearRefreshTimer st
  if strTruthy st.accessToken then
    match getTokenExpirationInfo parse st nowMs with
    | none => st
    | some info =>
      if info.isExpired then st
      else { st with refreshTimer := some (max 1000 (info.expiresAtMs - nowMs - refreshBuffer)) }
  else st

/-- Method `TokenManager.setTokens`: assigns the four fields, saves to storage,
then reschedules the refresh check (`updateUI` is presentational). -/
def setTokens (parse : String → Option Payload) (nowMs : Int)
    (accessToken refreshToken : Option String) (sessionData : Option Session)
    (user : Option User) (st : TMState) : TMState :=
  scheduleRefreshCheck parse
    (saveToStorage
      { st with accessToken := accessToken, refreshToken := refreshToken,
                sessionData := sessionData, user := user })
    nowMs

/-- Body of the `/api/auth/refresh` response. -/
structure RefreshBody where
  success : Bool := false
  access_token : Option String := none
  refresh_token : Option String := none
  error : Option String := none
deriving DecidableEq

/-- Outcome of the `fetch` issued by `performTokenRefresh`:
`networkError` models a rejected `fetch`, `response` a settled HTTP
response with its JSON body. -/
inductive FetchResult where
  | networkError (msg : String)
  | response (status : Nat) (body : RefreshBody)
deriving DecidableEq

/-- Errors thrown by `performTokenRefresh`: `network` re-raises the fetch
rejection, `badStatus s` is `Refresh failed: <s>` for a non-ok response,
`server m` is `data.error` when truthy, else the default message. -/
inductive RefreshErr where
  | network (msg : String)
  | badStatus (status : Nat)
  | server (msg : String)
deriving DecidableEq

/-- The expression taking `data.error` when truthy, else `Refresh failed`. -/
def serverErrMsg : Option String → String
  | some e => if e == "" then "Refresh failed" else e
  | none => "Refresh failed"

/-- Property `response.ok`: the HTTP status is in the 200-299 range. -/
def responseOk (status : Nat) : Bool :=
  decide (200 ≤ status) && decide (status ≤ 299)

/-- Method `TokenManager.performTokenRefresh`: one network call per invocation.
On an ok response whose body has truthy `success` and `access_token`, the
access and refresh tokens are overwritten, `sessionData.refreshedAt` is
stamped when a session exists, the state is saved to storage and the
refresh check rescheduled.  Every failure path runs the catch block:
`clearTokens()` then rethrow. -/
def performTokenRefresh (parse : String → Option Payload) (resp : FetchResult)
    (nowMs : Int) (st : TMState) : Except RefreshErr String × TMState :=
  match resp with
  | FetchResult.networkError m => (Except.error (RefreshErr.network m), clearTokens st)
  | FetchResult.response status body =>
    if responseOk status then
      if body.success && strTruthy body.access_token then
        let newSession :=
          match st.sessionData with
          | some sd => some { sd with refreshedAt := some nowMs }
          | none => none
        let st1 := { st with accessToken := body.access_token,
                             refreshToken := body.refresh_token,
                             sessionData := newSession }
        let st2 := scheduleRefreshCheck parse (saveToStorage st1) nowMs
        (Except.ok (body.access_token.getD ""), st2)
      else (Except.error (RefreshErr.server (serverErrMsg body.error)), clearTokens st)
    else (Except.error (RefreshErr.badStatus status), clearTokens st)

/-- A property slot of the `TokenManager` object, as JS property lookup
sees it: either a data property holding a non-callable value, or a
callable prototype method. -/
inductive JsSlot where
  | str (v : Option String)
  | sess (v : Option Session)
  | usr (v : Option User)
  | timer (v : Option Int)
  | num (v : Int)
  | flag (b : Bool)
  | promise (v : Option Unit)
  | storeObj (s : StorageMap)
  | fn (methodName : String)
deriving DecidableEq

/-- Own properties of the instance: exactly the assignments performed by
the `TokenManager` constructor. -/
def ownProperty (st : TMState) : String → Option JsSlot
  | "accessToken" => some (JsSlot.str st.accessToken)
  | "refreshToken" => some (JsSlot.str st.refreshToken)
  | "sessionData" => some (JsSlot.sess st.sessionData)
  | "user" => some (JsSlot.usr st.user)
  | "refreshTimer" => some (JsSlot.timer st.refreshTimer)
  | "refreshBuffer" => some (JsSlot.num refreshBuffer)
  | "isRefreshing" => some (JsSlot.flag st.isRefreshing)
  | "refreshPromise" => some (JsSlot.promise st.refreshPromise)
  | "storage" => some (JsSlot.storeObj st.storage)
  | _ => none

/-- Methods of `TokenManager.prototype` (the class methods). -/
def prototypeProperty : String → Option JsSlot
  | "refreshToken" => some (JsSlot.fn "refreshToken")
  | "performTokenRefresh" => some (JsSlot.fn "performTokenRefresh")
  | "forceRefresh" => some (JsSlot.fn "forceRefresh")
  | "autoRefresh" => some (JsSlot.fn "autoRefresh")
  | "setTokens" => some (JsSlot.fn "setTokens")
  | "clearTokens" => some (JsSlot.fn "clearTokens")
  | "needsRefresh" => some (JsSlot.fn "needsRefresh")
  | "scheduleRefreshCheck" => some (JsSlot.fn "scheduleRefreshCheck")
  | "logout" => some (JsSlot.fn "logout")
  | _ => none

/-- JS property lookup on the instance: own properties shadow the
prototype chain. -/
def getProperty (st : TMState) (name : String) : Option JsSlot :=
  match ownProperty st name with
  | some s => some s
  | none => prototypeProperty name

/-- Only function-valued slots are callable. -/
def isCallable : JsSlot → Bool
  | JsSlot.fn _ => true
  | _ => false

/-- Errors surfaced by a `this.refreshToken()` call: a `TypeError` from
calling a non-function, or an error thrown by the refresh logic. -/
inductive JsErr where
  | typeError (msg : String)
  | thrown (e : RefreshErr)
  | noRefreshToken
deriving DecidableEq

/-- Result of an awaited `this.refreshToken()` call. -/
inductive RefreshOutcome where
  | refreshed (token : String)
  | joinedInFlight
deriving DecidableEq

/-- Body of the prototype method `TokenManager.refreshToken` (single-
caller, sequential semantics): join the in-flight refresh when
`isRefreshing`, throw when the stored refresh token is falsy, otherwise
run `performTokenRefresh` under the `isRefreshing` flag.  The last
component counts network calls. -/
def refreshTokenBody (parse : String → Option Payload) (resp : FetchResult)
    (nowMs : Int) (st : TMState) : Except JsErr RefreshOutcome × TMState × Nat :=
  if st.isRefreshing then (Except.ok RefreshOutcome.joinedInFlight, st, 0)
  else if strTruthy st.refreshToken then
    let st1 := { st with isRefreshing := true }
    match performTokenRefresh parse resp nowMs st1 with
    | (Except.ok tok, st2) =>
      (Except.ok (RefreshOutcome.refreshed tok),
        { st2 with isRefreshing := false, refreshPromise := none }, 1)
    | (Except.error e, st2) =>
      (Except.error (JsErr.thrown e),
        { st2 with isRefreshing := false, refreshPromise := none }, 1)
  else (Except.error JsErr.noRefreshToken, st, 0)

/-- The expression `this.refreshToken()`: property lookup followed by a
call.  The own data property `refreshToken` (assigned `null` in the
constructor) shadows the prototype method of the same name, so the looked
up value is never callable and the call throws a `TypeError` before any
network activity. -/
def callRefreshTokenProp (parse : String → Option Payload) (resp : FetchResult)
    (nowMs : Int) (st : TMState) : Except JsErr RefreshOutcome × TMState × Nat :=
  match getProperty st "refreshToken" with
  | some slot =>
    if isCallable slot then refreshTokenBody parse resp nowMs st
    else (Except.error (JsErr.typeError "this.refreshToken is not a function"), st, 0)
  | none => (Except.error (JsErr.typeError "this.refreshToken is not a function"), st, 0)

/-- Method `TokenManager.forceRefresh`: awaits `this.refreshToken()`, returns
`true` on success and catches any error into `false` (the catch block
only shows a notification; it does not clear state). -/
def forceRefresh (parse : String → Option Payload) (resp : FetchResult)
    (nowMs : Int) (st : TMState) : Bool × TMState × Nat :=
  match callRefreshTokenProp parse resp nowMs st with
  | (Except.ok _, st1, n) => (true, st1, n)
  | (Except.error _, st1, n) => (false, st1, n)

/-- Method `TokenManager.autoRefresh`: returns `undefined` (here `none`) without
refreshing when already refreshing or no refresh is needed, otherwise
returns the result of `this.refreshToken()`. -/
def autoRefresh (parse : String → Option Payload) (resp : FetchResult)
    (nowMs : Int) (st : TMState) :
    Option (Except JsErr RefreshOutcome) × TMState × Nat :=
  if st.isRefreshing || !(needsRefresh parse st nowMs) then (none, st, 0)
  else
    match callRefreshTokenProp parse resp nowMs st with
    | (r, st1, n) => (some r, st1, n)

theorem getProperty_refreshToken_eq (st : TMState) :
    getProperty st "refreshToken" = some (JsSlot.str st.refreshToken) := rfl

theorem callRefreshTokenProp_eq (parse : String → Option Payload)
    (resp : FetchResult) (nowMs : Int) (st : TMState) :
    callRefreshTokenProp parse resp nowMs st
      = (Except.error (JsErr.typeError "this.refreshToken is not a function"), st, 0) := rfl

theorem forceRefresh_eq (parse : String → Option Payload) (resp : FetchResult)
    (nowMs : Int) (st : TMState) :
    forceRefresh parse resp nowMs st = (false, st, 0) := rfl

/-- C9: in every state, the own data property `refreshToken` (assigned
`null` in the constructor, later the refresh-token string) shadows the
prototype method `refreshToken()`, so `this.refreshToken()` throws a
`TypeError`; `forceRefresh` catches it and returns `false` with the state
untouched and no network call, and `autoRefresh` either does nothing or
surfaces the same `TypeError`. -/
theorem c9_forceRefresh_always_false (parse : String → Option Payload)
    (resp : FetchResult) (nowMs : Int) (st : TMState) :
    getProperty st "refreshToken" = some (JsSlot.str st.refreshToken)
    ∧ isCallable (JsSlot.str st.refreshToken) = false
    ∧ callRefreshTokenProp parse resp nowMs st
        = (Except.error (JsErr.typeError "this.refreshToken is not a function"), st, 0)
    ∧ forceRefresh parse resp nowMs st = (false, st, 0)
    ∧ (autoRefresh parse resp nowMs st = (none, st, 0)
        ∨ autoRefresh parse resp nowMs st
            = (some (Except.error (JsErr.typeError "this.refreshToken is not a function")), st, 0)) := by
  refine ⟨rfl, rfl, rfl, rfl, ?_⟩
  by_cases h : st.isRefreshing || !(needsRefresh parse st nowMs)
  · left
    simp [autoRefresh, h]
  · right
    simp [autoRefresh, h, callRefreshTokenProp_eq]

/-- Two simultaneous `refresh()` invocations under the single-threaded
event loop: the first call runs (its synchronous prefix throws before any
await), then the second.  Returns both results, the total number of
network calls, and the final state. -/
def twoSimultaneousRefreshCalls (parse : String → Option Payload)
    (resp : FetchResult) (nowMs : Int) (st : TMState) :
    Except JsErr RefreshOutcome × Except JsErr RefreshOutcome × Nat × TMState :=
  match callRefreshTokenProp parse resp nowMs st with
  | (r1, st1, n1) =>
    match callRefreshTokenProp parse resp nowMs st1 with
    | (r2, st2, n2) => (r1, r2, n1 + n2, st2)

/-- Concrete authenticated state used as the failing input for C1 and in
the C2 counterexample: access and refresh tokens present. -/
def stAuthed : TMState :=
  { accessToken := some "access.jwt.tok", refreshToken := some "refresh-tok-1",
    sessionData := some { id := some "sess-1" }, user := some { name := "Ada", role := "admin" },
    storage := { accessToken := some "access.jwt.tok", refreshToken := some "refresh-tok-1" } }

/-- Trivial decode used for concrete evaluations that never consult the
payload. -/
def parseNone : String → Option Payload := fun _ => none

/-- A refresh-endpoint response that would succeed if it were ever
requested. -/
def respOkRotated : FetchResult :=
  FetchResult.response 200
    { success := true, access_token := some "new-access", refresh_token := some "new-refresh" }

/-- C1 (evaluation at the failing input): issuing two simultaneous
`refresh()` calls on an authenticated idle state performs zero network
calls — not the one call the claim describes — and both callers receive
the same `TypeError` instead of a resolved token set, because the
`refreshToken` field shadows the `refreshToken()` method. -/
theorem c1_two_refresh_calls_zero_network :
    twoSimultaneousRefreshCalls parseNone respOkRotated 1000 stAuthed
      = (Except.error (JsErr.typeError "this.refreshToken is not a function"),
         Except.error (JsErr.typeError "this.refreshToken is not a function"),
         0, stAuthed)
    ∧ (0 : Nat) ≠ 1 := ⟨rfl, by decide⟩

/-- Outcome of `API.request`: `ok` for a 2xx response (parsed body
returned), `authFailed` for the terminal 401 branch (throws after
clearing the session), `httpErr` for other non-ok statuses,
`traceEnded` when the supplied response trace is exhausted while the
code still wants to issue another request. -/
inductive ApiOutcome where
  | ok
  | authFailed
  | httpErr (status : Nat)
  | traceEnded
deriving DecidableEq

/-- Method `API.handleAuthenticationFailure`: clears the token manager (the
redirect and notification are presentational). -/
def handleAuthenticationFailure (st : TMState) : TMState :=
  clearTokens st

/-- The test `endpoint.startsWith` applied to the auth path `/auth/`,
written as a character-list test so that it evaluates by reduction. -/
def startsWithAuth (endpoint : String) : Bool :=
  "/auth/".data.isPrefixOf endpoint.data

/-- Method `API.request` (api client lines 42-140), driven by the list of HTTP
statuses the server returns to the successive fetches (one list entry per
network call).  On a 401 for a non-`/auth/` endpoint with truthy access
and refresh tokens, it awaits `window.tokenManager.forceRefresh()` —
which never rejects — and then retries the same request recursively; the
`catch (refreshError)` branch is unreachable.  On a 401 otherwise it
clears the session and throws.  Returns the outcome, the total number of
network calls, and the final token-manager state. -/
def apiRequest (parse : String → Option Payload) (refreshResp : FetchResult)
    (nowMs : Int) (endpoint : String) (st : TMState) :
    List Nat → ApiOutcome × Nat × TMState
  | [] => (ApiOutcome.traceEnded, 0, st)
  | status :: rest =>
    if status == 401 then
      if !(startsWithAuth endpoint) && strTruthy st.accessToken
          && strTruthy st.refreshToken then
        match forceRefresh parse refreshResp nowMs st with
        | (_, st1, nRefresh) =>
          match apiRequest parse refreshResp nowMs endpoint st1 rest with
          | (o, n, st2) => (o, 1 + nRefresh + n, st2)
      else (ApiOutcome.authFailed, 1, handleAuthenticationFailure st)
    else if responseOk status then (ApiOutcome.ok, 1, st)
    else (ApiOutcome.httpErr status, 1, st)

/-- C2 (counterexample): with access and refresh tokens present, a
protected endpoint answered 401 three times in a row receives a third
request — the claim that no third attempt is ever made is false on the
code, whose retry is an unguarded recursion. -/
theorem c2_third_attempt_is_made :
    apiRequest parseNone respOkRotated 1000 "/customer" stAuthed [401, 401, 401]
      = (ApiOutcome.traceEnded, 3, stAuthed)
    ∧ (3 : Nat) ≠ 2 := ⟨rfl, by decide⟩

/-- C2 (amended): on a 401 for a non-`/auth/` endpoint while access and
refresh tokens are truthy, the client awaits `forceRefresh` — which
always resolves `false` with no network call and no state change, because
the `refreshToken` field shadows the method — and unconditionally retries
the same request; every further 401 repeats this, so the number of
attempts equals the number of 401 responses served, with the state never
cleared on this path.  The terminal branch (session clear plus
authentication failure) is reached on a 401 only when the access or
refresh token is falsy. -/
theorem c2_retry_unbounded (parse : String → Option Payload)
    (refreshResp : FetchResult) (nowMs : Int) (endpoint : String)
    (st : TMState) (responses : List Nat)
    (hep : startsWithAuth endpoint = false)
    (hacc : strTruthy st.accessToken = true)
    (href : strTruthy st.refreshToken = true)
    (h401 : ∀ x ∈ responses, x = 401) :
    apiRequest parse refreshResp nowMs endpoint st responses
      = (ApiOutcome.traceEnded, responses.length, st)
    ∧ (∀ st2 : TMState, strTruthy st2.refreshToken = false →
        apiRequest parse refreshResp nowMs endpoint st2 (401 :: responses)
          = (ApiOutcome.authFailed, 1, handleAuthenticationFailure st2)) := by
  constructor
  · induction responses with
    | nil => rfl
    | cons status rest ih =>
      have hs : status = 401 := h401 status (List.mem_cons_self status rest)
      have hrest : ∀ x ∈ rest, x = 401 := fun x hx => h401 x (List.mem_cons_of_mem status hx)
      have ihr := ih hrest
      subst hs
      simp only [apiRequest, hep, hacc, href, forceRefresh_eq, ihr]
      simp
      omega
  · intro st2 h2
    simp only [apiRequest, h2]
    simp

/-- Concrete instantiation of `c2_retry_unbounded`: two 401 responses
produce two attempts with the state unchanged, and a 401 with no refresh
token is terminal. -/
theorem c2_retry_unbounded_witness :
    (startsWithAuth "/customer" = false
      ∧ strTruthy stAuthed.accessToken = true
      ∧ strTruthy stAuthed.refreshToken = true)
    ∧ apiRequest parseNone respOkRotated 1000 "/customer" stAuthed [401, 401]
        = (ApiOutcome.traceEnded, 2, stAuthed) :=
  ⟨⟨by decide, by decide, by decide⟩,
    (c2_retry_unbounded parseNone respOkRotated 1000 "/customer" stAuthed [401, 401]
      (by decide) (by decide) (by decide) (by decide)).1⟩

/-- Whether a refresh attempt fails: the fetch rejects, the response is
not ok, or the body lacks a truthy `success`/`access_token`. -/
def refreshAttemptFails : FetchResult → Bool
  | FetchResult.networkError _ => true
  | FetchResult.response status body =>
    !(responseOk status) || !(body.success && strTruthy body.access_token)

/-- C3: whenever the refresh attempt fails — the endpoint rejects the
request or is unreachable — `performTokenRefresh` surfaces an error and
leaves the state fully cleared: access token, refresh token, session and
user are absent both in memory and in the durable store, and no pending
timer remains. -/
theorem c3_failed_refresh_clears_all (parse : String → Option Payload)
    (resp : FetchResult) (nowMs : Int) (st : TMState)
    (hfail : refreshAttemptFails resp = true) :
    ∃ e, performTokenRefresh parse resp nowMs st = (Except.error e, clearTokens st)
    ∧ (clearTokens st).accessToken = none
    ∧ (clearTokens st).refreshToken = none
    ∧ (clearTokens st).sessionData = none
    ∧ (clearTokens st).user = none
    ∧ (clearTokens st).refreshTimer = none
    ∧ (clearTokens st).storage = {} := by
  cases resp with
  | networkError m =>
    exact ⟨RefreshErr.network m, rfl, rfl, rfl, rfl, rfl, rfl, rfl⟩
  | response status body =>
    by_cases hok : responseOk status = true
    · have hbody : (body.success && strTruthy body.access_token) = false := by
        simp [refreshAttemptFails, hok] at hfail
        rcases hfail with h | h <;> simp [h]
      refine ⟨RefreshErr.server (serverErrMsg body.error), ?_, rfl, rfl, rfl, rfl, rfl, rfl⟩
      simp [performTokenRefresh, hok, hbody]
    · have hok' : responseOk status = false := by
        cases h : responseOk status with
        | false => rfl
        | true => exact absurd h hok
      refine ⟨RefreshErr.badStatus status, ?_, rfl, rfl, rfl, rfl, rfl, rfl⟩
      simp [performTokenRefresh, hok']

/-- Concrete instantiation of `c3_failed_refresh_clears_all`: a 401 from
the refresh endpoint clears the authenticated state. -/
theorem c3_witness :
    refreshAttemptFails (FetchResult.response 401 { error := some "invalid" }) = true
    ∧ ∃ e, performTokenRefresh parseNone (FetchResult.response 401 { error := some "invalid" })
        1000 stAuthed = (Except.error e, clearTokens stAuthed)
      ∧ (clearTokens stAuthed).accessToken = none
      ∧ (clearTokens stAuthed).refreshToken = none
      ∧ (clearTokens stAuthed).sessionData = none
      ∧ (clearTokens stAuthed).user = none
      ∧ (clearTokens stAuthed).refreshTimer = none
      ∧ (clearTokens stAuthed).storage = {} :=
  ⟨by decide,
    c3_failed_refresh_clears_all parseNone (FetchResult.response 401 { error := some "invalid" })
      1000 stAuthed (by decide)⟩

theorem saveToStorage_fields (st : TMState) :
    (saveToStorage st).accessToken = st.accessToken
    ∧ (saveToStorage st).refreshToken = st.refreshToken
    ∧ (saveToStorage st).sessionData = st.sessionData
    ∧ (saveToStorage st).user = st.user
    ∧ (saveToStorage st).refreshTimer = st.refreshTimer
    ∧ (saveToStorage st).isRefreshing = st.isRefreshing := by
  refine ⟨rfl, rfl, rfl, rfl, rfl, rfl⟩

theorem saveToStorage_storage (st : TMState) :
    (saveToStorage st).storage.accessToken
      = (if strTruthy st.accessToken then st.accessToken else st.storage.accessToken)
    ∧ (saveToStorage st).storage.refreshToken
      = (if strTruthy st.refreshToken then st.refreshToken else st.storage.refreshToken)
    ∧ (saveToStorage st).storage.sessionData
      = (if st.sessionData.isSome then st.sessionData else st.storage.sessionData)
    ∧ (saveToStorage st).storage.userData
      = (if st.user.isSome then st.user else st.storage.userData) := by
  unfold saveToStorage
  by_cases h1 : strTruthy st.accessToken <;>
    by_cases h2 : strTruthy st.refreshToken <;>
    by_cases h3 : st.sessionData.isSome <;>
    by_cases h4 : st.user.isSome <;>
    simp [h1, h2, h3, h4]

theorem scheduleRefreshCheck_fields (parse : String → Option Payload)
    (st : TMState) (nowMs : Int) :
    (scheduleRefreshCheck parse st nowMs).accessToken = st.accessToken
    ∧ (scheduleRefreshCheck parse st nowMs).refreshToken = st.refreshToken
    ∧ (scheduleRefreshCheck parse st nowMs).sessionData = st.sessionData
    ∧ (scheduleRefreshCheck parse st nowMs).user = st.user
    ∧ (scheduleRefreshCheck parse st nowMs).isRefreshing = st.isRefreshing
    ∧ (scheduleRefreshCheck parse st nowMs).storage = st.storage := by
  unfold scheduleRefreshCheck clearRefreshTimer
  by_cases h : strTruthy st.accessToken <;> simp [h]
  rcases getTokenExpirationInfo parse { st with refreshTimer := none } nowMs with _ | info
  · simp
  · by_cases hi : info.isExpired <;> simp [hi]

theorem scheduleRefreshCheck_timer (parse : String → Option Payload)
    (st : TMState) (nowMs : Int) (tok : String) (p : Payload) (e : Int)
    (hacc : st.accessToken = some tok) (htok : tok ≠ "")
    (hp : parse tok = some p) (he : p.exp = some e) (hne : e ≠ 0) :
    (scheduleRefreshCheck parse st nowMs).refreshTimer
      = if e - Int.fdiv nowMs 1000 ≤ 0 then none
        else some (max 1000 (e * 1000 - nowMs - refreshBuffer)) := by
  unfold scheduleRefreshCheck clearRefreshTimer getTokenExpirationInfo
  by_cases hexp : e - Int.fdiv nowMs 1000 ≤ 0 <;>
    simp [hacc, htok, strTruthy, hp, he, hne, hexp]

/-- C4 (counterexample): a token that expires 10 seconds after the
current time, with the default 5-minute buffer, has `refreshAt` in the
past; `setTokens` schedules the refresh to fire after the clamped
1-second minimum delay, not immediately (delay 0). -/
def parse10s : String → Option Payload :=
  fun _ => some { exp := some 1000000010, iat := some 1000000000 }

theorem c4_past_refreshAt_not_immediate :
    (setTokens parse10s 1000000000000 (some "tok") none none none {}).refreshTimer
      = some 1000
    ∧ some (1000 : Int) ≠ some (0 : Int) := ⟨rfl, by decide⟩

/-- C4 (amended): on every `setTokens` whose access token is truthy and
decodes with a nonzero `exp`, the scheduled delay is
`max(1000 ms, expiresAt - now - refreshBuffer)` when the token is not yet
expired, and no timer is scheduled when it is already expired; in
particular, when `refreshAt = expiresAt - refreshBuffer` is already in
the past (or less than a second away) the refresh fires after the
1-second minimum delay rather than immediately. -/
theorem c4_schedule_clamped (parse : String → Option Payload) (nowMs : Int)
    (tok : String) (r : Option String) (s : Option Session) (u : Option User)
    (st : TMState) (p : Payload) (e : Int)
    (htok : tok ≠ "") (hp : parse tok = some p) (he : p.exp = some e) (hne : e ≠ 0) :
    ((setTokens parse nowMs (some tok) r s u st).refreshTimer
      = if e - Int.fdiv nowMs 1000 ≤ 0 then none
        else some (max 1000 (e * 1000 - nowMs - refreshBuffer)))
    ∧ (¬ (e - Int.fdiv nowMs 1000 ≤ 0) → e * 1000 - nowMs - refreshBuffer ≤ 1000 →
        (setTokens parse nowMs (some tok) r s u st).refreshTimer = some 1000) := by
  have hmain : (setTokens parse nowMs (some tok) r s u st).refreshTimer
      = if e - Int.fdiv nowMs 1000 ≤ 0 then none
        else some (max 1000 (e * 1000 - nowMs - refreshBuffer)) := by
    unfold setTokens
    exact scheduleRefreshCheck_timer parse _ nowMs tok p e
      (saveToStorage_fields _).1 htok hp he hne
  refine ⟨hmain, ?_⟩
  intro hlive hsmall
  rw [hmain]
  simp [hlive, max_eq_left hsmall]

theorem c4_schedule_clamped_witness :
    ("tok" ≠ "" ∧ parse10s "tok" = some { exp := some 1000000010, iat := some 1000000000 })
    ∧ ((setTokens parse10s 1000000000100 (some "tok") none none none {}).refreshTimer
        = if (1000000010 : Int) - Int.fdiv 1000000000100 1000 ≤ 0 then none
          else some (max 1000 ((1000000010 : Int) * 1000 - 1000000000100 - refreshBuffer)))
    ∧ (¬ ((1000000010 : Int) - Int.fdiv 1000000000100 1000 ≤ 0) →
        (1000000010 : Int) * 1000 - 1000000000100 - refreshBuffer ≤ 1000 →
        (setTokens parse10s 1000000000100 (some "tok") none none none {}).refreshTimer
          = some 1000) :=
  ⟨⟨by decide, rfl⟩,
    (c4_schedule_clamped parse10s 1000000000100 "tok" none none none {}
      { exp := some 1000000010, iat := some 1000000000 } 1000000010
      (by decide) rfl rfl (by decide)).1,
    (c4_schedule_clamped parse10s 1000000000100 "tok" none none none {}
      { exp := some 1000000010, iat := some 1000000000 } 1000000010
      (by decide) rfl rfl (by decide)).2⟩

/-- State whose durable store still holds an old refresh token, used as
the C5 counterexample input. -/
def c5St : TMState := { storage := { refreshToken := some "old-refresh" } }

/-- C5 (counterexample): `setTokens` with an absent (`null`) refresh
token replaces the in-memory field but leaves the previously stored
refresh token in durable storage — the store does not end up holding
exactly the newly supplied values. -/
theorem c5_absent_field_left_in_storage :
    (setTokens parseNone 0 (some "newacc") none
        (some { id := some "s1" }) (some { name := "Ada", role := "customer" }) c5St).refreshToken
      = none
    ∧ (setTokens parseNone 0 (some "newacc") none
        (some { id := some "s1" }) (some { name := "Ada", role := "customer" }) c5St).storage.refreshToken
      = some "old-refresh"
    ∧ some "old-refresh" ≠ (none : Option String) := ⟨rfl, rfl, by decide⟩

/-- C5 (amended): `setTokens` atomically replaces all four in-memory
fields with the supplied values, but persists each field to durable
storage only when the supplied value is truthy; a falsy (absent) field
leaves the previously stored value for that key in place. -/
theorem c5_setTokens_replace_persist (parse : String → Option Payload)
    (nowMs : Int) (a r : Option String) (s : Option Session) (u : Option User)
    (st : TMState) :
    (setTokens parse nowMs a r s u st).accessToken = a
    ∧ (setTokens parse nowMs a r s u st).refreshToken = r
    ∧ (setTokens parse nowMs a r s u st).sessionData = s
    ∧ (setTokens parse nowMs a r s u st).user = u
    ∧ (setTokens parse nowMs a r s u st).storage.accessToken
        = (if strTruthy a then a else st.storage.accessToken)
    ∧ (setTokens parse nowMs a r s u st).storage.refreshToken
        = (if strTruthy r then r else st.storage.refreshToken)
    ∧ (setTokens parse nowMs a r s u st).storage.sessionData
        = (if s.isSome then s else st.storage.sessionData)
    ∧ (setTokens parse nowMs a r s u st).storage.userData
        = (if u.isSome then u else st.storage.userData) := by
  unfold setTokens
  obtain ⟨f1, f2, f3, f4, _, f6⟩ := scheduleRefreshCheck_fields parse
    (saveToStorage { st with accessToken := a, refreshToken := r, sessionData := s, user := u })
    nowMs
  obtain ⟨g1, g2, g3, g4, _, _⟩ := saveToStorage_fields
    { st with accessToken := a, refreshToken := r, sessionData := s, user := u }
  obtain ⟨k1, k2, k3, k4⟩ := saveToStorage_storage
    { st with accessToken := a, refreshToken := r, sessionData := s, user := u }
  refine ⟨?_, ?_, ?_, ?_, ?_, ?_, ?_, ?_⟩
  · rw [f1, g1]
  · rw [f2, g2]
  · rw [f3, g3]
  · rw [f4, g4]
  · rw [f6, k1]
  · rw [f6, k2]
  · rw [f6, k3]
  · rw [f6, k4]

/-- Field `this.charset` of `PKCEHelper`: the unreserved characters
`A-Z a-z 0-9 - . _ ~` (66 characters). -/
def pkceCharsetList : List Char :=
  "ABCDEFGHIJKLMNOPQRSTUVWXYZabcdefghijklmnopqrstuvwxyz0123456789-._~".data

/-- Error message thrown by `generateCodeVerifier` for an out-of-range
length. -/
def verifierLengthErr : String :=
  "Code verifier length must be between 43 and 128 characters"

/-- Method `PKCEHelper.generateCodeVerifier`: validates the length, then maps
each random byte onto the charset by modulo.  `randomValues` stands for
the `Uint8Array(length)` filled by `crypto.getRandomValues`; the i-th
loop iteration reads `randomValues[i]`. -/
def generateCodeVerifier (length : Nat) (randomValues : List Nat) :
    Except String String :=
  if length < 43 ∨ 128 < length then Except.error verifierLengthErr
  else
    Except.ok (String.mk ((List.range length).map
      (fun i => pkceCharsetList.getD ((randomValues.getD i 0) % pkceCharsetList.length) 'A')))

/-- The base64 alphabet used by `btoa`. -/
def b64Alpha : List Char :=
  "ABCDEFGHIJKLMNOPQRSTUVWXYZabcdefghijklmnopqrstuvwxyz0123456789+/".data

/-- Character of the base64 alphabet at a 6-bit index. -/
def b64char (n : Nat) : Char := b64Alpha.getD n 'A'

/-- Standard base64 of a byte sequence, three bytes to four characters
with `=` padding — the behaviour of `arrayBufferToBase64` (which builds a
binary string and calls `btoa`). -/
def b64chunks : List Nat → List Char
  | b1 :: b2 :: b3 :: rest =>
    b64char (b1 / 4) :: b64char ((b1 % 4) * 16 + b2 / 16) ::
      b64char ((b2 % 16) * 4 + b3 / 64) :: b64char (b3 % 64) :: b64chunks rest
  | [b1, b2] => [b64char (b1 / 4), b64char ((b1 % 4) * 16 + b2 / 16),
      b64char ((b2 % 16) * 4), '=']
  | [b1] => [b64char (b1 / 4), b64char ((b1 % 4) * 16), '=', '=']
  | [] => []

/-- The three global replacements of `PKCEHelper.base64urlEncode`
(`+` to `-`, `/` to `_`, `=` removed), applied per character. -/
def urlMapChar (c : Char) : Char :=
  if c == '+' then '-' else if c == '/' then '_' else c

/-- Function `PKCEHelper.base64urlEncode` on a byte sequence. -/
def base64urlEncode (bytes : List Nat) : String :=
  String.mk (((b64chunks bytes).map urlMapChar).filter (fun c => !(c == '=')))

/-- Field `this.supportedMethods`, holding `S256` and `plain`. -/
def supportedMethods : List String := ["S256", "plain"]

/-- Method `PKCEHelper.generateCodeChallenge`: validates the verifier and
method, then derives the challenge.  The platform SHA-256 digest
(`crypto.subtle.digest`) is abstracted as `sha256`, returning the digest
bytes; the S256 path is `base64urlEncode(sha256(verifier))`, the plain
path returns the verifier. -/
def generateCodeChallenge (sha256 : String → List Nat) (codeVerifier : String)
    (pkceMethod : String) : Except String String :=
  if codeVerifier == "" then Except.error "Code verifier is required"
  else if !(pkceMethod ∈ supportedMethods) then Except.error "Unsupported method"
  else if pkceMethod == "S256" then Except.ok (base64urlEncode (sha256 codeVerifier))
  else if pkceMethod == "plain" then Except.ok codeVerifier
  else Except.error "Unknown method"

/-- Method `PKCEHelper.verifyCodeChallenge`: false for falsy inputs, otherwise
recomputes the expected challenge and compares; any error during
derivation yields false. -/
def verifyCodeChallenge (sha256 : String → List Nat)
    (codeVerifier codeChallenge pkceMethod : String) : Bool :=
  if codeVerifier == "" || codeChallenge == "" then false
  else
    match generateCodeChallenge sha256 codeVerifier pkceMethod with
    | Except.ok expected => expected == codeChallenge
    | Except.error _ => false

theorem b64char_ne_pad (n : Nat) : b64char n ≠ '=' := by
  unfold b64char
  by_cases h : n < b64Alpha.length
  · have hm : b64Alpha.getD n 'A' ∈ b64Alpha := by
      rw [List.getD_eq_getElem b64Alpha 'A' h]
      exact List.getElem_mem h
    have hall : ∀ c ∈ b64Alpha, c ≠ '=' := by decide
    exact hall _ hm
  · rw [List.getD_eq_default b64Alpha 'A' (le_of_not_lt h)]
    decide

theorem urlMapChar_ne_pad {c : Char} (h : c ≠ '=') : urlMapChar c ≠ '=' := by
  unfold urlMapChar
  by_cases h1 : c == '+'
  · simp [h1]
  · by_cases h2 : c == '/'
    · simp [h1, h2]
    · simp [h1, h2, h]

theorem stringMk_ne_empty {l : List Char} (h : l ≠ []) : String.mk l ≠ "" :=
  fun he => h (congrArg String.data he)

theorem base64urlEncode_ne_empty (bytes : List Nat) (h : bytes ≠ []) :
    base64urlEncode bytes ≠ "" := by
  have key : ∀ (c : Char) (l : List Char), c ≠ '=' →
      ((c :: l).map urlMapChar).filter (fun x => !(x == '=')) ≠ [] := by
    intro c l hc
    have hc' : urlMapChar c ≠ '=' := urlMapChar_ne_pad hc
    simp only [List.map_cons, List.filter_cons]
    simp [hc']
  unfold base64urlEncode
  rcases bytes with _ | ⟨b1, _ | ⟨b2, _ | ⟨b3, rest⟩⟩⟩
  · exact absurd rfl h
  · exact stringMk_ne_empty (key _ _ (b64char_ne_pad _))
  · exact stringMk_ne_empty (key _ _ (b64char_ne_pad _))
  · exact stringMk_ne_empty (key _ _ (b64char_ne_pad _))

/-- C6: for every valid verifier (length 43-128 over the unreserved
character set) and every supported method, verifying the challenge
derived from the verifier succeeds.  The platform SHA-256 digest is an
arbitrary 32-byte function of the verifier. -/
theorem c6_verify_derived_challenge (sha256 : String → List Nat)
    (v pkceMethod : String)
    (h43 : 43 ≤ v.length) (h128 : v.length ≤ 128)
    (hchars : ∀ c ∈ v.data, c ∈ pkceCharsetList)
    (hm : pkceMethod = "S256" ∨ pkceMethod = "plain")
    (hsha : (sha256 v).length = 32) :
    ∃ c, generateCodeChallenge sha256 v pkceMethod = Except.ok c
    ∧ verifyCodeChallenge sha256 v c pkceMethod = true := by
  have hvne : v ≠ "" := by
    intro hv
    subst hv
    exact absurd h43 (by decide)
  have hv : (v == "") = false := by
    simp [hvne]
  rcases hm with hm | hm <;> subst hm
  · have hbne : base64urlEncode (sha256 v) ≠ "" := by
      apply base64urlEncode_ne_empty
      intro hnil
      rw [hnil] at hsha
      exact absurd hsha (by decide)
    have hb : (base64urlEncode (sha256 v) == "") = false := by
      simp [hbne]
    refine ⟨base64urlEncode (sha256 v), ?_, ?_⟩
    · simp [generateCodeChallenge, hv, supportedMethods]
    · simp [verifyCodeChallenge, hv, hb, generateCodeChallenge, supportedMethods]
  · refine ⟨v, ?_, ?_⟩
    · simp [generateCodeChallenge, hv, supportedMethods]
    · simp [verifyCodeChallenge, hv, generateCodeChallenge, supportedMethods]

/-- Concrete verifier (43 characters) and digest instantiating
`c6_verify_derived_challenge` for the S256 method. -/
def c6Verifier : String := String.mk (List.replicate 43 'a')

/-- Stand-in digest for the witness: a fixed 32-byte value. -/
def c6Digest : String → List Nat := fun _ => List.range 32

theorem c6_witness :
    (43 ≤ c6Verifier.length ∧ c6Verifier.length ≤ 128 ∧ (c6Digest c6Verifier).length = 32)
    ∧ ∃ c, generateCodeChallenge c6Digest c6Verifier "S256" = Except.ok c
      ∧ verifyCodeChallenge c6Digest c6Verifier c "S256" = true :=
  ⟨⟨by decide, by decide, by decide⟩,
    c6_verify_derived_challenge c6Digest c6Verifier "S256" (by decide) (by decide)
      (by decide) (Or.inl rfl) (by decide)⟩

/-- C7 (counterexample): the verifier alphabet `this.charset` has 66
characters (26 + 26 + 10 + 4), not the 64 the claim describes. -/
theorem c7_charset_has_66_chars :
    pkceCharsetList.length = 66 ∧ pkceCharsetList.length ≠ 64 := ⟨by decide, by decide⟩

/-- C7 (amended): `generateCodeVerifier` rejects every length outside
`[43, 128]` with the invalid-length error; for every length inside the
range it returns a string of exactly that length whose characters are
drawn, by modulo mapping of the random bytes, from the 66-character
unreserved alphabet. -/
theorem c7_verifier_generation :
    (∀ (length : Nat) (rv : List Nat), (length < 43 ∨ 128 < length) →
      generateCodeVerifier length rv = Except.error verifierLengthErr)
    ∧ (∀ (length : Nat) (rv : List Nat), 43 ≤ length → length ≤ 128 →
      ∃ s, generateCodeVerifier length rv = Except.ok s
        ∧ s.length = length
        ∧ ∀ c ∈ s.data, c ∈ pkceCharsetList) := by
  constructor
  · intro length rv h
    simp [generateCodeVerifier, h]
  · intro length rv h1 h2
    have hcond : ¬ (length < 43 ∨ 128 < length) := by omega
    refine ⟨String.mk ((List.range length).map
        (fun i => pkceCharsetList.getD ((rv.getD i 0) % pkceCharsetList.length) 'A')),
      ?_, ?_, ?_⟩
    · unfold generateCodeVerifier
      rw [if_neg hcond]
    · have hdata : (String.mk ((List.range length).map
          (fun i => pkceCharsetList.getD ((rv.getD i 0) % pkceCharsetList.length) 'A'))).length
          = ((List.range length).map
            (fun i => pkceCharsetList.getD ((rv.getD i 0) % pkceCharsetList.length) 'A')).length :=
        rfl
      rw [hdata, List.length_map, List.length_range]
    · intro c hc
      rw [show (String.mk ((List.range length).map
          (fun i => pkceCharsetList.getD ((rv.getD i 0) % pkceCharsetList.length) 'A'))).data
          = (List.range length).map
            (fun i => pkceCharsetList.getD ((rv.getD i 0) % pkceCharsetList.length) 'A') from rfl]
        at hc
      rw [List.mem_map] at hc
      obtain ⟨i, _, rfl⟩ := hc
      have hlt : (rv.getD i 0) % pkceCharsetList.length < pkceCharsetList.length :=
        Nat.mod_lt _ (by decide)
      rw [List.getD_eq_getElem pkceCharsetList 'A' hlt]
      exact List.getElem_mem hlt

theorem c7_witness :
    generateCodeVerifier 10 [] = Except.error verifierLengthErr
    ∧ ∃ s, generateCodeVerifier 43 (List.replicate 43 65) = Except.ok s
      ∧ s.length = 43 ∧ ∀ c ∈ s.data, c ∈ pkceCharsetList :=
  ⟨c7_verifier_generation.1 10 [] (Or.inl (by decide)),
    c7_verifier_generation.2 43 (List.replicate 43 65) (by decide) (by decide)⟩
